import Mathlib

/-!
Verification of the seismological data-integration tool
(`structured_database.py`) against its specification.

The script fetches earthquake catalogs from two sources (USGS GeoJSON and
ISC pipe-delimited text), normalizes both into a canonical
`time/magnitude/longitude/latitude` shape with pandas, concatenates them,
stores them in a SQLite table `earthquakes`, and offers a raw-predicate
query path.  This file shallowly embeds the data model and the operations
of that script:

* pandas DataFrames become `DF` (a column-name list plus rows of `Val`s);
* Python/pandas scalar values become `Val` (strings, numbers, timestamps,
  None/NaN/NaT conflated into `Val.vNull`, and Python lists);
* `float(...)` / `.astype(float)` string-to-number conversion becomes
  `parseFloat` over a `Flt` mantissa/decimal-exponent pair (decimal
  notation with optional sign; scientific notation, `inf` and `nan`
  are outside the modelled subset, which is enough for every claim);
* fallible pandas/sqlite operations return `Except String _`, with the
  raising Python exception class as the error payload;
* the SQLite store becomes `DB` (table list, auto-increment counter,
  stored rows); an uncaught exception before `conn.commit()` leaves the
  on-disk store unchanged (SQLite rolls the open transaction back), which
  the embedding renders as `Except.error` carrying no new store state.
-/

namespace SeismoTool

/-- Exact decimal number `mant / 10 ^ dexp`, the result of parsing a
float literal.  Kept unnormalized so that all arithmetic is `Int`/`Nat`
and kernel-reducible. -/
structure Flt where
  mant : Int
  dexp : Nat
deriving DecidableEq, Repr

/-- Opaque timestamp representation: `pd.to_datetime` output, keeping the
source-native representation (millisecond epoch number for source A,
timestamp string for source B).  No claim inspects calendar arithmetic. -/
inductive TimeRep where
  | fromMs (ms : Flt)
  | fromStr (s : String)
deriving DecidableEq, Repr

/-- A Python/pandas scalar value.  `vNull` conflates Python `None`,
pandas `NaN` and `NaT` (SQLite also stores float NaN as NULL, so the
conflation is observation-preserving for this program). -/
inductive Val where
  | vStr (s : String)
  | vNum (x : Flt)
  | vTime (t : TimeRep)
  | vNull
  | vList (l : List Val)

open Val

/-- Numeric value of a digit list, most significant first. -/
def digitsVal (cs : List Char) : Nat :=
  cs.foldl (fun acc c => acc * 10 + (c.toNat - 48)) 0

/-- Parse an unsigned decimal literal: digits with at most one point,
allowing `5.`, `.5`, rejecting `.` and empty input (as Python `float`). -/
def parseUnsignedFloat (cs : List Char) : Option Flt :=
  let intPart := cs.takeWhile (fun c => c.isDigit)
  let rest := cs.dropWhile (fun c => c.isDigit)
  match rest with
  | [] =>
      if intPart.isEmpty then none
      else some ⟨(digitsVal intPart : Int), 0⟩
  | '.' :: frac =>
      if frac.all (fun c => c.isDigit) && (!intPart.isEmpty || !frac.isEmpty) then
        some ⟨(digitsVal intPart * 10 ^ frac.length + digitsVal frac : Int), frac.length⟩
      else none
  | _ => none

/-- Python `float(s)` on the decimal subset: optional sign, then an
unsigned decimal literal; `none` models the raised `ValueError`. -/
def parseFloat (s : String) : Option Flt :=
  match s.toList with
  | '-' :: cs => (parseUnsignedFloat cs).map (fun x => ⟨-x.mant, x.dexp⟩)
  | '+' :: cs => parseUnsignedFloat cs
  | cs => parseUnsignedFloat cs

/-- Shape check used to model `pd.to_datetime` on a string: a timestamp
string starts with a digit and uses only date/time punctuation.  The
exact calendar grammar is irrelevant to every claim; only
success-vs-raise matters. -/
def isTimeLike (s : String) : Bool :=
  match s.toList with
  | [] => false
  | c :: cs =>
      c.isDigit &&
        (c :: cs).all (fun ch =>
          ch.isDigit || (['-', ':', 'T', ' ', '.', 'Z', '/'].contains ch))

/-- A pandas DataFrame: ordered column names and rows of values (row
entries positionally aligned with `columns`). -/
structure DF where
  columns : List String
  rows : List (List Val)

/-- Position of column `c`, `none` when the frame has no such column. -/
def colIdx (cols : List String) (c : String) : Option Nat :=
  match cols with
  | [] => none
  | h :: t => if h = c then some 0 else (colIdx t c).map (fun i => i + 1)

/-- Column read `df[c]`: the value list, or `KeyError`. -/
def getCol (df : DF) (c : String) : Except String (List Val) :=
  match colIdx df.columns c with
  | some i => .ok (df.rows.map (fun r => r.getD i .vNull))
  | none => .error "KeyError"

/-- Column write `df[c] = vs`: overwrite in place when `c` exists,
otherwise append a new column on the right (pandas assignment). -/
def setCol (df : DF) (c : String) (vs : List Val) : DF :=
  match colIdx df.columns c with
  | some i => ⟨df.columns, (df.rows.zip vs).map (fun p => p.1.set i p.2)⟩
  | none => ⟨df.columns ++ [c], (df.rows.zip vs).map (fun p => p.1 ++ [p.2])⟩

/-- Column projection `df[cs]`: `KeyError` when any name is absent. -/
def projectCols (df : DF) (cs : List String) : Except String DF :=
  match cs.mapM (colIdx df.columns) with
  | some idxs => .ok ⟨cs, df.rows.map (fun r => idxs.map (fun i => r.getD i .vNull))⟩
  | none => .error "KeyError"

/-- One normalization step of the script, `df[dst] = f(df[src])`:
read column `src`, convert every value with `f` (the whole column
conversion raises on the first bad value, as `pd.to_datetime`,
`.astype(float)` and `.apply` do), then assign column `dst`. -/
def convertCol (df : DF) (src dst : String) (f : Val → Except String Val) :
    Except String DF := do
  let vs ← getCol df src
  let ws ← vs.mapM f
  return setCol df dst ws

/-- Is the value missing (None/NaN/NaT)? -/
def isNullVal : Val → Bool
  | .vNull => true
  | _ => false

/-- Line 125, `df.dropna(subset=cs)`: keep only rows whose `cs` entries
are all non-null. -/
def dropnaSubset (df : DF) (cs : List String) : Except String DF :=
  match cs.mapM (colIdx df.columns) with
  | some idxs =>
      .ok ⟨df.columns,
        df.rows.filter (fun r => idxs.all (fun i => !(isNullVal (r.getD i .vNull))))⟩
  | none => .error "KeyError"

/-- Re-align one row of a source frame to the union column list of a
concatenation, filling absent columns with NaN. -/
def reindexRow (srcCols allCols : List String) (r : List Val) : List Val :=
  allCols.map (fun c =>
    match colIdx srcCols c with
    | some i => r.getD i .vNull
    | none => .vNull)

/-- Lines 80 and 207, `pd.concat([a, b], ignore_index=True)`: union of the
column lists (first-frame order first), all of `a`'s rows followed by all
of `b`'s rows, each re-aligned to the union columns. -/
def concatDF (a b : DF) : DF :=
  let cols := a.columns ++ b.columns.filter (fun c => !(a.columns.contains c))
  ⟨cols, a.rows.map (reindexRow a.columns cols) ++ b.rows.map (reindexRow b.columns cols)⟩

/-! ### Source adapters (post-network parsing)

The network transport itself is out of scope; the adapters are modelled
from the point where the response body is in hand. -/

/-- Line 23, `pd.json_normalize(data['features'])`: each feature arrives
as an ordered list of (dotted-path key, value) pairs; the frame's columns
are the keys in first-seen order, and a feature missing a key yields NaN.
Crucially, an empty feature list yields a frame with no columns at all. -/
def jsonNormalize (features : List (List (String × Val))) : DF :=
  let cols := features.foldl
    (fun acc r => acc ++ (r.map Prod.fst).filter (fun k => !(acc.contains k))) []
  ⟨cols, features.map (fun r =>
    cols.map (fun c =>
      match r.find? (fun p => p.1 == c) with
      | some p => p.2
      | none => .vNull))⟩

/-- Python `s.split('|')`. -/
def splitPipe (s : String) : List String :=
  (s.toList.foldr
    (fun c acc =>
      if c = '|' then [] :: acc
      else
        match acc with
        | g :: t => (c :: g) :: t
        | [] => [[c]])
    [[]]).map (fun g => String.mk g)

/-- Lines 44-47 of `fetch_isc_data`: split the body into lines, take the
first as headers, split every further line on `|`, and build the frame;
an empty body raises `IndexError` (`lines[0]`), and a data line whose
token count differs from the header count makes the `pd.DataFrame`
constructor raise. -/
def fetch_isc_parse (bodyLines : List String) : Except String DF :=
  match bodyLines with
  | [] => .error "IndexError"
  | h :: rest =>
      let headers := splitPipe h
      let data := rest.map splitPipe
      if data.all (fun r => r.length == headers.length) then
        .ok ⟨headers, data.map (fun r => r.map (fun s => Val.vStr s))⟩
      else .error "ValueError"

/-! ### Normalizer -/

/-- Line 61, `pd.to_datetime(col, unit='ms')` on one value: a number (or
numeric string) is a millisecond epoch, None/NaN becomes NaT, anything
else raises. -/
def toDatetimeMs : Val → Except String Val
  | .vNum x => .ok (.vTime (.fromMs x))
  | .vStr s =>
      match parseFloat s with
      | some x => .ok (.vTime (.fromMs x))
      | none => .error "ValueError"
  | .vNull => .ok .vNull
  | .vTime t => .ok (.vTime t)
  | .vList _ => .error "TypeError"

/-- Line 69, `pd.to_datetime(col)` on one value: a timestamp-shaped
string parses, None/NaN becomes NaT, a number is an epoch, anything else
raises. -/
def toDatetimeStr : Val → Except String Val
  | .vStr s => if isTimeLike s then .ok (.vTime (.fromStr s)) else .error "ValueError"
  | .vNull => .ok .vNull
  | .vTime t => .ok (.vTime t)
  | .vNum x => .ok (.vTime (.fromMs x))
  | .vList _ => .error "TypeError"

/-- Lines 70-72, `.astype(float)` on one value: a parseable string
becomes its number, a number stays, None/NaN stays missing, and an
unparseable string RAISES `ValueError` — it does not become a null. -/
def astypeFloat : Val → Except String Val
  | .vStr s =>
      match parseFloat s with
      | some x => .ok (.vNum x)
      | none => .error "ValueError"
  | .vNum x => .ok (.vNum x)
  | .vNull => .ok .vNull
  | .vTime _ => .error "TypeError"
  | .vList _ => .error "TypeError"

/-- Line 63, `.apply(lambda x: x[0])` on one value: Python indexing. -/
def pyIdx0 : Val → Except String Val
  | .vList (a :: _) => .ok a
  | .vList [] => .error "IndexError"
  | .vStr s =>
      match s.toList with
      | c :: _ => .ok (.vStr (String.mk [c]))
      | [] => .error "IndexError"
  | _ => .error "TypeError"

/-- Line 64, `.apply(lambda x: x[1])` on one value. -/
def pyIdx1 : Val → Except String Val
  | .vList (_ :: b :: _) => .ok b
  | .vList _ => .error "IndexError"
  | .vStr s =>
      match s.toList with
      | _ :: c :: _ => .ok (.vStr (String.mk [c]))
      | _ => .error "IndexError"
  | _ => .error "TypeError"

/-- The canonical projection column list. -/
def stdCols : List String := ["time", "magnitude", "longitude", "latitude"]

/-- Lines 59-65, `standardize_usgs_data`: mutates the caller's frame by
assigning the four canonical columns, then returns the four-column
projection.  The result pairs the mutated frame (the caller's `usgs_data`
after the call) with the returned projection. -/
def standardize_usgs_data (usgs_data : DF) : Except String (DF × DF) := do
  let df1 ← convertCol usgs_data "properties.time" "time" toDatetimeMs
  let df2 ← convertCol df1 "properties.mag" "magnitude" (fun v => .ok v)
  let df3 ← convertCol df2 "geometry.coordinates" "longitude" pyIdx0
  let df4 ← convertCol df3 "geometry.coordinates" "latitude" pyIdx1
  let proj ← projectCols df4 stdCols
  return (df4, proj)

/-- Lines 67-73, `standardize_isc_data`: mutates the caller's frame by
assigning the four canonical columns (the three numeric ones through
`.astype(float)`), then returns the four-column projection. -/
def standardize_isc_data (isc_data : DF) : Except String (DF × DF) := do
  let df1 ← convertCol isc_data "Time" "time" toDatetimeStr
  let df2 ← convertCol df1 "Magnitude" "magnitude" astypeFloat
  let df3 ← convertCol df2 "Longitude" "longitude" astypeFloat
  let df4 ← convertCol df3 "Latitude" "latitude" astypeFloat
  let proj ← projectCols df4 stdCols
  return (df4, proj)

/-! ### Store (SQLite table `earthquakes`) -/

/-- One persisted row of the `earthquakes` table: the surrogate key plus
the five canonical fields, exactly the tuple shape `SELECT *` returns. -/
structure StoredRow where
  rowId : Nat
  time : Val
  magnitude : Val
  longitude : Val
  latitude : Val
  source : Val

/-- The SQLite database file: its table names, the `AUTOINCREMENT`
counter for `earthquakes`, and the stored rows in insertion order. -/
structure DB where
  tables : List String
  nextId : Nat
  rows : List StoredRow

/-- Lines 98-107, `CREATE TABLE IF NOT EXISTS earthquakes (...)`: add the
table when absent, leave the database untouched when present.  The schema
declares no NOT NULL constraint on any column. -/
def createTableIfNotExists (db : DB) : DB :=
  if "earthquakes" ∈ db.tables then db
  else ⟨db.tables ++ ["earthquakes"], db.nextId, db.rows⟩

/-- Can the Python value be bound as a SQLite parameter?  Scalars and
None bind (None/NaN as NULL); a Python list raises `InterfaceError`. -/
def bindable : Val → Bool
  | .vList _ => false
  | _ => true

/-- One `INSERT INTO earthquakes (time, magnitude, longitude, latitude,
source) VALUES (?, ?, ?, ?, ?)`: fails when the table is missing or a
parameter is unbindable; otherwise appends the row with the next
surrogate id.  No column is constrained, so NULL fields insert fine. -/
def insertEarthquake (db : DB) (t m lon lat src : Val) : Except String DB :=
  if "earthquakes" ∈ db.tables then
    if bindable t && bindable m && bindable lon && bindable lat && bindable src then
      .ok ⟨db.tables, db.nextId + 1, db.rows ++ [⟨db.nextId, t, m, lon, lat, src⟩]⟩
    else .error "InterfaceError"
  else .error "OperationalError"

/-- Field read `row[c]` on an iterrows row: `KeyError` when absent. -/
def getField (cols : List String) (r : List Val) (c : String) : Except String Val :=
  match colIdx cols c with
  | some i => .ok (r.getD i .vNull)
  | none => .error "KeyError"

/-- Field read `row.get(c, d)` on an iterrows row: default when absent. -/
def rowGetD (cols : List String) (r : List Val) (c : String) (d : Val) : Val :=
  match colIdx cols c with
  | some i => r.getD i .vNull
  | none => d

/-- Python `.isoformat()` on a row's time value: a timestamp renders (the
rendering is kept opaque as the same timestamp representation), NaT
renders as the string `"NaT"`, and any non-datetime value raises
`AttributeError`. -/
def isoformatVal : Val → Except String Val
  | .vTime t => .ok (.vTime t)
  | .vNull => .ok (.vStr "NaT")
  | _ => .error "AttributeError"

/-- Body of the USGS module-level insert loop (lines 116-120): read the
four fields, render the time with `.isoformat()`, insert with the
hard-coded source tag `'USGS'`.  Nothing here is caught. -/
def usgsRowInsert (cols : List String) (db : DB) (r : List Val) : Except String DB := do
  let t ← getField cols r "time"
  let tIso ← isoformatVal t
  let m ← getField cols r "magnitude"
  let lon ← getField cols r "longitude"
  let lat ← getField cols r "latitude"
  insertEarthquake db tIso m lon lat (.vStr "USGS")

/-- Lines 116-120: the USGS insert loop has no try/except, so the first
failing row aborts the whole loop. -/
def usgsInsertLoop (db : DB) (cols : List String) (rows : List (List Val)) :
    Except String DB :=
  rows.foldlM (fun d r => usgsRowInsert cols d r) db

/-- Body of the ISC module-level insert loop (lines 136-144), the part
inside the `try`: read the fields, render the time, insert with the
hard-coded source tag `'ISC'`. -/
def iscRowInsert (cols : List String) (db : DB) (r : List Val) : Except String DB := do
  let t ← getField cols r "time"
  let tIso ← isoformatVal t
  let m ← getField cols r "magnitude"
  let lon ← getField cols r "longitude"
  let lat ← getField cols r "latitude"
  insertEarthquake db tIso m lon lat (.vStr "ISC")

/-- One ISC loop iteration: `try: insert except Exception: print(...)` —
a failing row is logged and skipped, leaving the database as it was. -/
def iscRowTry (cols : List String) (db : DB) (r : List Val) : DB :=
  match iscRowInsert cols db r with
  | .ok d => d
  | .error _ => db

/-- Lines 136-144: the ISC insert loop catches every per-row failure, so
it is total — it never aborts the batch. -/
def iscInsertLoop (db : DB) (cols : List String) (rows : List (List Val)) : DB :=
  rows.foldl (fun d r => iscRowTry cols d r) db

/-- Lines 115-148 of the module-level store phase, run on the already
normalized frames: USGS loop (uncaught), `dropna` on the ISC frame,
ISC loop (caught per row), then `conn.commit(); conn.close()`.  An
`Except.error` result means an uncaught exception fired before the
commit, so SQLite rolls back and the stored state stays as it was. -/
def moduleStorePhase (db : DB) (usgsClean iscClean : DF) : Except String DB := do
  let d1 ← usgsInsertLoop db usgsClean.columns usgsClean.rows
  let iscFiltered ← dropnaSubset iscClean ["magnitude", "longitude", "latitude"]
  return iscInsertLoop d1 iscFiltered.columns iscFiltered.rows

/-- Body of the merged-path insert loop in `main` (lines 212-216): read
the four fields positionally from the combined frame and take the source
from `row.get('source', 'Unknown')`.  No try/except, no `.isoformat()`
(the raw time value is bound directly). -/
def mainRowInsert (cols : List String) (db : DB) (r : List Val) : Except String DB := do
  let t ← getField cols r "time"
  let m ← getField cols r "magnitude"
  let lon ← getField cols r "longitude"
  let lat ← getField cols r "latitude"
  insertEarthquake db t m lon lat (rowGetD cols r "source" (.vStr "Unknown"))

/-- Lines 212-216: the merged-path insert loop; a failing row aborts it
(no catching), and then `conn.commit()` on line 217 never runs. -/
def mainInsertLoop (db : DB) (cols : List String) (rows : List (List Val)) :
    Except String DB :=
  rows.foldlM (fun d r => mainRowInsert cols d r) db

/-- Lines 201-219, the `--fetch` branch of `main` applied to the fetched
raw frames: standardize both sources, concatenate, open the store and run
the merged insert loop, then commit and close.  `main` never creates the
table, and applies no null filtering.  `Except.ok` carries the committed
store; `Except.error` means the run aborted before the commit, leaving
the store unchanged. -/
def mainFetch (usgsRaw iscRaw : DF) (db : DB) : Except String DB := do
  let u ← standardize_usgs_data usgsRaw
  let i ← standardize_isc_data iscRaw
  mainInsertLoop db (concatDF u.2 i.2).columns (concatDF u.2 i.2).rows

/-! ### Query path -/

/-- Line 225, the f-string `f"SELECT * FROM earthquakes WHERE ..."`: the
caller-supplied predicate text is substituted verbatim, unsanitized. -/
def querySql (p : String) : String :=
  "SELECT * FROM earthquakes WHERE " ++ p

/-- Lines 225-226, `cursor.execute(select).fetchall()` with a WHERE
clause: SQLite returns, in stored order, exactly the rows satisfying the
predicate.  The SQL evaluation of the predicate text over a row is
modelled by its denotation `pred`. -/
def runQuery (db : DB) (pred : StoredRow → Bool) : List StoredRow :=
  db.rows.filter pred

/-! ### Observable effect trace of the program

`structured_database.py` is a notebook export: every cell runs at module
level when the script is executed, before `main` is even called.  The
trace below records the externally observable effects (network calls,
console prints, database operations, plotting), parameterized by the row
counts that determine how many inserts run. -/

/-- An externally observable side effect of the script. -/
inductive Effect where
  | httpGet (url : String)
  | consolePrint
  | dbOpen (file : String)
  | dbExecCreate
  | dbExecInsert
  | dbExecSelect
  | dbCommit
  | dbClose
  | plotShow
deriving DecidableEq, Repr

/-- Endpoint of source A (line 14). -/
def usgsUrl : String := "https://earthquake.usgs.gov/fdsnws/event/1/query"

/-- Endpoint of source B (line 36). -/
def iscUrl : String := "http://isc-mirror.iris.washington.edu/fdsnws/event/1/query"

/-- Database file name (lines 94, 157, 210, 223). -/
def dbFile : String := "seismological_data.db"

/-- Effects of the module-level cells, lines 26-185, in program order:
fetch A + print head, fetch B + print head, print combined head, open the
store and create the table, `nUsgs` USGS inserts, the isna print, the ISC
inserts on the `nIscFiltered` surviving rows, commit, close, then the
query cell (open, select, print, close), then the plot.  These run on
EVERY execution of the script, before and regardless of `main`. -/
def moduleCellEffects (nUsgs nIscFiltered : Nat) : List Effect :=
  [.httpGet usgsUrl, .consolePrint, .httpGet iscUrl, .consolePrint, .consolePrint,
    .dbOpen dbFile, .dbExecCreate]
  ++ List.replicate nUsgs .dbExecInsert
  ++ [.consolePrint]
  ++ List.replicate nIscFiltered .dbExecInsert
  ++ [.dbCommit, .dbClose,
      .dbOpen dbFile, .dbExecSelect, .consolePrint, .dbClose,
      .plotShow]

/-- Effects of `main` (lines 195-229): the `--fetch` branch fetches both
sources and runs the merged write path, the `--query` branch runs the
read path, and with neither flag `main` itself does nothing. -/
def mainEffects (fetchFlag : Bool) (queryArg : Option String) (nCombined : Nat) :
    List Effect :=
  if fetchFlag then
    [.httpGet usgsUrl, .httpGet iscUrl, .dbOpen dbFile]
    ++ List.replicate nCombined .dbExecInsert
    ++ [.dbCommit, .dbClose, .consolePrint]
  else
    match queryArg with
    | some _ => [.dbOpen dbFile, .dbExecSelect, .consolePrint, .dbClose]
    | none => []

/-- Effects of one execution of the script (lines 1-232): the
module-level cells always run first, then `main` dispatches on flags. -/
def programEffects (fetchFlag : Bool) (queryArg : Option String)
    (nUsgs nIscFiltered nCombined : Nat) : List Effect :=
  moduleCellEffects nUsgs nIscFiltered ++ mainEffects fetchFlag queryArg nCombined

/-! ### Concrete instances used to settle the claims -/

open Val

/-- An ISC-shaped raw row whose Magnitude field is the given value. -/
def iscRowWithMagV (v : Val) : DF :=
  ⟨["EventID", "Time", "Latitude", "Longitude", "Magnitude"],
   [[vStr "e1", vStr "2023-05-01 00:00:00", vStr "35.0", vStr "-120.1", v]]⟩

/-- An ISC-shaped raw row whose Longitude field is the given value. -/
def iscRowWithLonV (v : Val) : DF :=
  ⟨["EventID", "Time", "Latitude", "Longitude", "Magnitude"],
   [[vStr "e1", vStr "2023-05-01 00:00:00", vStr "35.0", v, vStr "5.0"]]⟩

/-- An ISC-shaped raw row whose Latitude field is the given value. -/
def iscRowWithLatV (v : Val) : DF :=
  ⟨["EventID", "Time", "Latitude", "Longitude", "Magnitude"],
   [[vStr "e1", vStr "2023-05-01 00:00:00", v, vStr "-120.1", vStr "5.0"]]⟩

/-- A representative ISC response header line. -/
def iscHeaderLine : String := "EventID|Time|Latitude|Longitude|Magnitude"

/-- The frame `fetch_isc_data` produces from a header-only response. -/
def iscEmptyParsed : DF :=
  ⟨["EventID", "Time", "Latitude", "Longitude", "Magnitude"], []⟩

/-- The mutated frame `standardize_isc_data` leaves behind on a zero-row
input: the raw columns plus the four appended canonical ones. -/
def iscEmptyMut : DF :=
  ⟨["EventID", "Time", "Latitude", "Longitude", "Magnitude",
    "time", "magnitude", "longitude", "latitude"], []⟩

/-- A zero-row frame already in canonical shape. -/
def dfEmptyStd : DF := ⟨stdCols, []⟩

/-- A well-formed one-feature USGS response. -/
def usgsGoodRaw : DF := jsonNormalize
  [[("properties.time", vNum ⟨1683000000000, 0⟩),
    ("properties.mag", vNum ⟨62, 1⟩),
    ("geometry.coordinates", vList [vNum ⟨-1201, 1⟩, vNum ⟨350, 1⟩])]]

/-- A USGS response whose single feature has a JSON-null magnitude. -/
def usgsNullMagRaw : DF := jsonNormalize
  [[("properties.time", vNum ⟨1683000000000, 0⟩),
    ("properties.mag", vNull),
    ("geometry.coordinates", vList [vNum ⟨-1201, 1⟩, vNum ⟨350, 1⟩])]]

/-- A two-feature USGS response where the second feature's first
coordinate entry is itself a list, so its normalized longitude is a
Python list that SQLite cannot bind. -/
def usgsTwoFeatRaw : DF := jsonNormalize
  [[("properties.time", vNum ⟨1683000000000, 0⟩),
    ("properties.mag", vNum ⟨62, 1⟩),
    ("geometry.coordinates", vList [vNum ⟨-1201, 1⟩, vNum ⟨350, 1⟩])],
   [("properties.time", vNum ⟨1683100000000, 0⟩),
    ("properties.mag", vNum ⟨55, 1⟩),
    ("geometry.coordinates", vList [vList [vNum ⟨1, 0⟩], vNum ⟨350, 1⟩])]]

/-- A well-formed one-row ISC raw frame. -/
def iscGoodDF : DF :=
  ⟨["EventID", "Time", "Latitude", "Longitude", "Magnitude"],
   [[vStr "e1", vStr "2023-05-02 00:00:00", vStr "36.0", vStr "140.0", vStr "5.1"]]⟩

/-- A fresh store in which the `earthquakes` table already exists. -/
def db0 : DB := ⟨["earthquakes"], 1, []⟩

/-- A canonical-shaped row whose time field is a plain string, so that
`.isoformat()` raises `AttributeError` on it. -/
def badTimeRow : List Val :=
  [vStr "oops", vNum ⟨1, 0⟩, vNum ⟨2, 0⟩, vNum ⟨3, 0⟩]

/-- A fully well-formed canonical-shaped row. -/
def goodStdRow : List Val :=
  [vTime (.fromStr "2023-05-01 00:00:00"), vNum ⟨51, 1⟩, vNum ⟨1400, 1⟩, vNum ⟨360, 1⟩]

/-- A canonical-shaped row whose longitude is a Python list, so binding
it as a SQLite parameter raises `InterfaceError`. -/
def badMainRow : List Val :=
  [vTime (.fromStr "2023-05-01 00:00:00"), vNum ⟨51, 1⟩, vList [], vNum ⟨360, 1⟩]

/-- The store produced by the merged write path on the good inputs. -/
def c4RunDB : DB :=
  match mainFetch usgsGoodRaw iscGoodDF db0 with
  | .ok d => d
  | .error _ => db0

/-- The first record persisted by that run. -/
def c4Row1 : StoredRow :=
  c4RunDB.rows.headD ⟨0, vNull, vNull, vNull, vNull, vNull⟩

/-- The source tags persisted by the merged write path on good inputs
from BOTH adapters. -/
def c4Sources : List Val :=
  match mainFetch usgsGoodRaw iscGoodDF db0 with
  | .ok d => d.rows.map (fun r => r.source)
  | .error _ => []

/-- The magnitudes persisted by the merged write path when source A's
feature has a null magnitude. -/
def c5Mags : List Val :=
  match mainFetch usgsNullMagRaw iscEmptyParsed db0 with
  | .ok d => d.rows.map (fun r => r.magnitude)
  | .error _ => [vStr "no-run"]

/-- Output of `standardize_usgs_data` on the good USGS input. -/
def c10oU : DF × DF :=
  match standardize_usgs_data usgsGoodRaw with
  | .ok o => o
  | .error _ => (usgsGoodRaw, usgsGoodRaw)

/-- Output of `standardize_isc_data` on the good ISC input. -/
def c10oI : DF × DF :=
  match standardize_isc_data iscGoodDF with
  | .ok o => o
  | .error _ => (iscGoodDF, iscGoodDF)

/-- A two-row normalized source-A table (the spec's merger scenario). -/
def dfA2 : DF :=
  ⟨stdCols,
   [[vTime (.fromMs ⟨1, 0⟩), vNum ⟨60, 1⟩, vNum ⟨10, 0⟩, vNum ⟨20, 0⟩],
    [vTime (.fromMs ⟨2, 0⟩), vNum ⟨61, 1⟩, vNum ⟨11, 0⟩, vNum ⟨21, 0⟩]]⟩

/-- A three-row normalized source-B table (the spec's merger scenario). -/
def dfB3 : DF :=
  ⟨stdCols,
   [[vTime (.fromStr "2023-01-01 00:00:00"), vNum ⟨50, 1⟩, vNum ⟨30, 0⟩, vNum ⟨40, 0⟩],
    [vTime (.fromStr "2023-01-02 00:00:00"), vNum ⟨51, 1⟩, vNum ⟨31, 0⟩, vNum ⟨41, 0⟩],
    [vTime (.fromStr "2023-01-03 00:00:00"), vNum ⟨52, 1⟩, vNum ⟨32, 0⟩, vNum ⟨42, 0⟩]]⟩

/-- A sample persisted record. -/
def sampleRow : StoredRow :=
  ⟨1, vTime (.fromStr "2023-05-01 00:00:00"), vNum ⟨62, 1⟩, vNum ⟨-1201, 1⟩,
   vNum ⟨350, 1⟩, vStr "USGS"⟩

/-- A store that already has the table and one row. -/
def dbPre : DB := ⟨["earthquakes"], 5, [sampleRow]⟩

/-! ### General lemmas about the embedding -/

theorem bindOk {α β : Type} (a : α) (f : α → Except String β) :
    (Except.ok a >>= f) = f a := rfl

theorem bindErr {α β : Type} (e : String) (f : α → Except String β) :
    ((Except.error e : Except String α) >>= f) = .error e := rfl

theorem exceptBind_ok {α β : Type} {x : Except String α} {f : α → Except String β}
    {b : β} (h : (x >>= f) = .ok b) : ∃ a, x = .ok a ∧ f a = .ok b := by
  cases x with
  | ok a => exact ⟨a, rfl, h⟩
  | error e =>
      rw [bindErr] at h
      exact Except.noConfusion h

theorem astypeFloat_unparseable {s : String} (h : parseFloat s = none) :
    astypeFloat (.vStr s) = .error "ValueError" := by
  simp [astypeFloat, h]

theorem std_isc_magV_err {v : Val} (h : astypeFloat v = .error "ValueError") :
    standardize_isc_data (iscRowWithMagV v) = .error "ValueError" := by
  show ((astypeFloat v >>= _) >>= _) >>= _ = .error "ValueError"
  rw [h]; rfl

theorem std_isc_lonV_err {v : Val} (h : astypeFloat v = .error "ValueError") :
    standardize_isc_data (iscRowWithLonV v) = .error "ValueError" := by
  show ((astypeFloat v >>= _) >>= _) >>= _ = .error "ValueError"
  rw [h]; rfl

theorem std_isc_latV_err {v : Val} (h : astypeFloat v = .error "ValueError") :
    standardize_isc_data (iscRowWithLatV v) = .error "ValueError" := by
  show ((astypeFloat v >>= _) >>= _) >>= _ = .error "ValueError"
  rw [h]; rfl

theorem colIdx_some_mem {cols : List String} {c : String} {i : Nat}
    (h : colIdx cols c = some i) : c ∈ cols := by
  induction cols generalizing i with
  | nil => exact Option.noConfusion h
  | cons hd tl ih =>
      unfold colIdx at h
      split at h
      · next heq => exact heq ▸ List.mem_cons_self hd tl
      · next hne =>
          cases hmap : colIdx tl c with
          | none => rw [hmap] at h; exact Option.noConfusion h
          | some j => exact List.mem_cons_of_mem hd (ih hmap)

theorem setCol_columns_mem {df : DF} {c : String} (vs : List Val) {x : String}
    (h : x ∈ df.columns) : x ∈ (setCol df c vs).columns := by
  cases hc : colIdx df.columns c <;> simp [setCol, hc, h]

theorem setCol_self_mem (df : DF) (c : String) (vs : List Val) :
    c ∈ (setCol df c vs).columns := by
  cases hc : colIdx df.columns c with
  | none => simp [setCol, hc]
  | some i =>
      simp [setCol, hc]
      exact colIdx_some_mem hc

theorem convertCol_ok {df df' : DF} {s d : String} {f : Val → Except String Val}
    (h : convertCol df s d f = .ok df') :
    ∃ vs ws, getCol df s = .ok vs ∧ vs.mapM f = .ok ws ∧ df' = setCol df d ws := by
  unfold convertCol at h
  obtain ⟨vs, h1, h2⟩ := exceptBind_ok h
  obtain ⟨ws, h3, h4⟩ := exceptBind_ok h2
  exact ⟨vs, ws, h1, h3, (Except.ok.inj h4).symm⟩

theorem convertCol_mem {df df' : DF} {s d : String} {f : Val → Except String Val}
    (h : convertCol df s d f = .ok df') :
    (∀ c ∈ df.columns, c ∈ df'.columns) ∧ d ∈ df'.columns := by
  obtain ⟨vs, ws, _, _, hdf⟩ := convertCol_ok h
  subst hdf
  exact ⟨fun c hc => setCol_columns_mem ws hc, setCol_self_mem df d ws⟩

theorem projectCols_ok_columns {df p : DF} {cs : List String}
    (h : projectCols df cs = .ok p) : p.columns = cs := by
  unfold projectCols at h
  cases hm : cs.mapM (colIdx df.columns) with
  | some idxs =>
      rw [hm] at h
      have := (Except.ok.inj h).symm
      subst this
      rfl
  | none => rw [hm] at h; exact Except.noConfusion h

theorem standardize_usgs_ok {df : DF} {out : DF × DF}
    (h : standardize_usgs_data df = .ok out) :
    (∀ c ∈ df.columns, c ∈ out.1.columns) ∧
    "time" ∈ out.1.columns ∧ "magnitude" ∈ out.1.columns ∧
    "longitude" ∈ out.1.columns ∧ "latitude" ∈ out.1.columns ∧
    out.2.columns = stdCols := by
  unfold standardize_usgs_data at h
  obtain ⟨df1, h1, h⟩ := exceptBind_ok h
  obtain ⟨df2, h2, h⟩ := exceptBind_ok h
  obtain ⟨df3, h3, h⟩ := exceptBind_ok h
  obtain ⟨df4, h4, h⟩ := exceptBind_ok h
  obtain ⟨proj, h5, h6⟩ := exceptBind_ok h
  have hout : (df4, proj) = out := Except.ok.inj h6
  subst hout
  obtain ⟨hm1, hd1⟩ := convertCol_mem h1
  obtain ⟨hm2, hd2⟩ := convertCol_mem h2
  obtain ⟨hm3, hd3⟩ := convertCol_mem h3
  obtain ⟨hm4, hd4⟩ := convertCol_mem h4
  have hcols := projectCols_ok_columns h5
  exact ⟨fun c hc => hm4 _ (hm3 _ (hm2 _ (hm1 _ hc))),
    hm4 _ (hm3 _ (hm2 _ hd1)), hm4 _ (hm3 _ hd2), hm4 _ hd3, hd4, hcols⟩

theorem standardize_isc_ok {df : DF} {out : DF × DF}
    (h : standardize_isc_data df = .ok out) :
    (∀ c ∈ df.columns, c ∈ out.1.columns) ∧
    "time" ∈ out.1.columns ∧ "magnitude" ∈ out.1.columns ∧
    "longitude" ∈ out.1.columns ∧ "latitude" ∈ out.1.columns ∧
    out.2.columns = stdCols := by
  unfold standardize_isc_data at h
  obtain ⟨df1, h1, h⟩ := exceptBind_ok h
  obtain ⟨df2, h2, h⟩ := exceptBind_ok h
  obtain ⟨df3, h3, h⟩ := exceptBind_ok h
  obtain ⟨df4, h4, h⟩ := exceptBind_ok h
  obtain ⟨proj, h5, h6⟩ := exceptBind_ok h
  have hout : (df4, proj) = out := Except.ok.inj h6
  subst hout
  obtain ⟨hm1, hd1⟩ := convertCol_mem h1
  obtain ⟨hm2, hd2⟩ := convertCol_mem h2
  obtain ⟨hm3, hd3⟩ := convertCol_mem h3
  obtain ⟨hm4, hd4⟩ := convertCol_mem h4
  have hcols := projectCols_ok_columns h5
  exact ⟨fun c hc => hm4 _ (hm3 _ (hm2 _ (hm1 _ hc))),
    hm4 _ (hm3 _ (hm2 _ hd1)), hm4 _ (hm3 _ hd2), hm4 _ hd3, hd4, hcols⟩

theorem insertEarthquake_ok {db : DB} {t m lon lat src : Val} {d : DB}
    (h : insertEarthquake db t m lon lat src = .ok d) :
    d.tables = db.tables ∧
      d.rows = db.rows ++ [⟨db.nextId, t, m, lon, lat, src⟩] := by
  unfold insertEarthquake at h
  split at h
  · split at h
    · have := Except.ok.inj h
      subst this
      exact ⟨rfl, rfl⟩
    · exact Except.noConfusion h
  · exact Except.noConfusion h

theorem mainRowInsert_ok {cols : List String} {db : DB} {r : List Val} {d : DB}
    (h : mainRowInsert cols db r = .ok d) :
    ∃ t m lon lat, d.tables = db.tables ∧
      d.rows = db.rows ++
        [⟨db.nextId, t, m, lon, lat, rowGetD cols r "source" (.vStr "Unknown")⟩] := by
  unfold mainRowInsert at h
  obtain ⟨t, h1, h⟩ := exceptBind_ok h
  obtain ⟨m, h2, h⟩ := exceptBind_ok h
  obtain ⟨lon, h3, h⟩ := exceptBind_ok h
  obtain ⟨lat, h4, h⟩ := exceptBind_ok h
  obtain ⟨ht, hr⟩ := insertEarthquake_ok h
  exact ⟨t, m, lon, lat, ht, hr⟩

theorem mainInsertLoop_cons (db : DB) (cols : List String) (r : List Val)
    (rest : List (List Val)) :
    mainInsertLoop db cols (r :: rest) =
      mainRowInsert cols db r >>= fun d1 => mainInsertLoop d1 cols rest := rfl

theorem mainInsertLoop_sourceUnknown {cols : List String}
    (hs : colIdx cols "source" = none) :
    ∀ (rows : List (List Val)) (db d : DB), mainInsertLoop db cols rows = .ok d →
      ∀ sr ∈ d.rows, sr ∈ db.rows ∨ sr.source = .vStr "Unknown" := by
  intro rows
  induction rows with
  | nil =>
      intro db d h sr hsr
      have hdb : db = d := Except.ok.inj h
      exact Or.inl (hdb ▸ hsr)
  | cons r rest ih =>
      intro db d h sr hsr
      rw [mainInsertLoop_cons] at h
      obtain ⟨d1, h1, h2⟩ := exceptBind_ok h
      obtain ⟨t, m, lon, lat, _, hr⟩ := mainRowInsert_ok h1
      rcases ih d1 d h2 sr hsr with hmem | hunk
      · rw [hr] at hmem
        rcases List.mem_append.mp hmem with hm | hm
        · exact Or.inl hm
        · right
          have hsrEq := List.mem_singleton.mp hm
          rw [hsrEq]
          show rowGetD cols r "source" (.vStr "Unknown") = .vStr "Unknown"
          unfold rowGetD
          rw [hs]
      · exact Or.inr hunk

theorem concatDF_columns (a b : DF) :
    (concatDF a b).columns =
      a.columns ++ b.columns.filter (fun c => !(a.columns.contains c)) := rfl

theorem concat_columns_std {a b : DF} (ha : a.columns = stdCols)
    (hb : b.columns = stdCols) : (concatDF a b).columns = stdCols := by
  rw [concatDF_columns, ha, hb]
  decide

theorem reindexRow_std (r : List Val) (h : r.length = 4) :
    reindexRow stdCols stdCols r = r := by
  rcases r with _ | ⟨a, r⟩
  · simp at h
  rcases r with _ | ⟨b, r⟩
  · simp at h
  rcases r with _ | ⟨c, r⟩
  · simp at h
  rcases r with _ | ⟨d, r⟩
  · simp at h
  rcases r with _ | ⟨e, r⟩
  · rfl
  · simp at h

theorem concat_rows_std {a b : DF} (ha : a.columns = stdCols)
    (hb : b.columns = stdCols) (hra : ∀ r ∈ a.rows, r.length = 4)
    (hrb : ∀ r ∈ b.rows, r.length = 4) :
    (concatDF a b).rows = a.rows ++ b.rows := by
  have hfilter : stdCols.filter (fun c => !(stdCols.contains c)) = [] := by decide
  show a.rows.map (reindexRow a.columns _) ++ b.rows.map (reindexRow b.columns _) =
    a.rows ++ b.rows
  rw [ha, hb, hfilter, List.append_nil]
  congr 1
  · calc a.rows.map (reindexRow stdCols stdCols)
        = a.rows.map id := List.map_congr_left (fun r hr => reindexRow_std r (hra r hr))
      _ = a.rows := List.map_id a.rows
  · calc b.rows.map (reindexRow stdCols stdCols)
        = b.rows.map id := List.map_congr_left (fun r hr => reindexRow_std r (hrb r hr))
      _ = b.rows := List.map_id b.rows

theorem createTable_idem (db : DB) :
    createTableIfNotExists (createTableIfNotExists db) = createTableIfNotExists db := by
  by_cases h : "earthquakes" ∈ db.tables
  · simp [createTableIfNotExists, h]
  · simp [createTableIfNotExists, h]

theorem createTable_iterate (n : Nat) (db : DB) :
    Nat.iterate createTableIfNotExists (n + 1) db = createTableIfNotExists db := by
  induction n generalizing db with
  | zero => rfl
  | succ k ih =>
      have hstep : Nat.iterate createTableIfNotExists (k + 2) db =
          Nat.iterate createTableIfNotExists (k + 1) (createTableIfNotExists db) := rfl
      rw [hstep, ih, createTable_idem]

theorem createTable_rows (db : DB) : (createTableIfNotExists db).rows = db.rows := by
  by_cases h : "earthquakes" ∈ db.tables <;> simp [createTableIfNotExists, h]

theorem createTable_count {db : DB} (h : db.tables.count "earthquakes" ≤ 1) :
    (createTableIfNotExists db).tables.count "earthquakes" = 1 := by
  by_cases hm : "earthquakes" ∈ db.tables
  · simp only [createTableIfNotExists, if_pos hm]
    have h1 : 0 < db.tables.count "earthquakes" := List.count_pos_iff.mpr hm
    omega
  · simp only [createTableIfNotExists, if_neg hm]
    rw [List.count_append]
    rw [List.count_eq_zero.mpr hm]
    rfl

theorem iscInsertLoop_cons (db : DB) (cols : List String) (r : List Val)
    (rest : List (List Val)) :
    iscInsertLoop db cols (r :: rest) = iscInsertLoop (iscRowTry cols db r) cols rest := rfl

theorem usgsLoop_cons (db : DB) (cols : List String) (r : List Val)
    (rest : List (List Val)) :
    usgsInsertLoop db cols (r :: rest) =
      usgsRowInsert cols db r >>= fun d1 => usgsInsertLoop d1 cols rest := rfl

/-! ### Claims -/

/-- C1 (counterexample): at a concrete source-B row whose magnitude field
is the unparseable string "abc", normalization does NOT turn the field
into a null and drop the row — `.astype(float)` raises `ValueError`, and
the whole fetch run errors out rather than reaching the batch insert with
that row filtered away. -/
theorem C1_counterexample :
    standardize_isc_data (iscRowWithMagV (Val.vStr "abc")) = .error "ValueError" ∧
    mainFetch usgsGoodRaw (iscRowWithMagV (Val.vStr "abc")) db0 = .error "ValueError" :=
  ⟨rfl, rfl⟩

/-- C1 (amended): for every string that does not parse as a float, a
source-B row carrying it in the magnitude, longitude, or latitude field
makes `standardize_isc_data` raise `ValueError` — aborting the run — so
no such row can ever be in a record sequence passed to the batch insert
(the fetch path cannot even complete), but not through the claimed
null-then-drop mechanism. -/
theorem C1_unparseable_row_aborts (s : String) (h : parseFloat s = none) :
    standardize_isc_data (iscRowWithMagV (.vStr s)) = .error "ValueError" ∧
    standardize_isc_data (iscRowWithLonV (.vStr s)) = .error "ValueError" ∧
    standardize_isc_data (iscRowWithLatV (.vStr s)) = .error "ValueError" ∧
    ∀ (uRaw : DF) (db d : DB), mainFetch uRaw (iscRowWithMagV (.vStr s)) db ≠ .ok d := by
  have hv := astypeFloat_unparseable h
  refine ⟨std_isc_magV_err hv, std_isc_lonV_err hv, std_isc_latV_err hv, ?_⟩
  intro uRaw db d hok
  unfold mainFetch at hok
  obtain ⟨oU, hu, hok⟩ := exceptBind_ok hok
  obtain ⟨oI, hi, _⟩ := exceptBind_ok hok
  rw [std_isc_magV_err hv] at hi
  exact Except.noConfusion hi

/-- C1 (witness): the amended theorem applied to the concrete
unparseable string "xx". -/
theorem C1_unparseable_row_aborts_witness :
    standardize_isc_data (iscRowWithMagV (Val.vStr "xx")) = .error "ValueError" :=
  (C1_unparseable_row_aborts "xx" rfl).1

/-- C2 (counterexample): a merged-path batch whose second row carries a
list-valued longitude aborts the whole run with `InterfaceError` (so the
commit never happens), and the USGS module-level loop likewise aborts on
its first failing row — contradicting the claim that every single-row
insert failure is caught and skipped and the batch still commits. -/
theorem C2_counterexample :
    mainFetch usgsTwoFeatRaw iscEmptyParsed db0 = .error "InterfaceError" ∧
    usgsInsertLoop db0 stdCols [badTimeRow, goodStdRow] = .error "AttributeError" :=
  ⟨rfl, rfl⟩

/-- C2 (amended): only the ISC module-level insert loop has per-row
catching — a failing row there is logged and skipped and the loop
continues with the store unchanged, a succeeding row advances it, and the
module store phase always reaches its terminal commit once the USGS rows
are through; the merged-path loop in `main` and the USGS module-level
loop have no catching, so one failing row aborts them (and the commit
after them) outright. -/
theorem C2_row_failure_policy :
    (∀ (cols : List String) (db : DB) (r : List Val) (e : String)
        (rest : List (List Val)), iscRowInsert cols db r = .error e →
        iscInsertLoop db cols (r :: rest) = iscInsertLoop db cols rest) ∧
    (∀ (cols : List String) (db : DB) (r : List Val) (d : DB)
        (rest : List (List Val)), iscRowInsert cols db r = .ok d →
        iscInsertLoop db cols (r :: rest) = iscInsertLoop d cols rest) ∧
    (∀ (db : DB) (iscClean iscF : DF),
      dropnaSubset iscClean ["magnitude", "longitude", "latitude"] = .ok iscF →
        moduleStorePhase db dfEmptyStd iscClean =
          .ok (iscInsertLoop db iscF.columns iscF.rows)) ∧
    (∀ (cols : List String) (db : DB) (r : List Val) (e : String)
        (rest : List (List Val)), mainRowInsert cols db r = .error e →
        mainInsertLoop db cols (r :: rest) = .error e) ∧
    (∀ (cols : List String) (db : DB) (r : List Val) (e : String)
        (rest : List (List Val)), usgsRowInsert cols db r = .error e →
        usgsInsertLoop db cols (r :: rest) = .error e) := by
  refine ⟨?_, ?_, ?_, ?_, ?_⟩
  · intro cols db r e rest h
    rw [iscInsertLoop_cons]
    simp only [iscRowTry, h]
  · intro cols db r d rest h
    rw [iscInsertLoop_cons]
    simp only [iscRowTry, h]
  · intro db iscClean iscF h
    show ((dropnaSubset iscClean ["magnitude", "longitude", "latitude"]) >>= _) = _
    rw [h]
    rfl
  · intro cols db r e rest h
    rw [mainInsertLoop_cons, h]
    rfl
  · intro cols db r e rest h
    rw [usgsLoop_cons, h]
    rfl

/-- C2 (witness): the amended theorem applied to concrete rows — the ISC
loop skips its failing first row, while the merged-path loop aborts on a
failing first row. -/
theorem C2_row_failure_policy_witness :
    iscInsertLoop db0 stdCols [badTimeRow, goodStdRow] =
      iscInsertLoop db0 stdCols [goodStdRow] ∧
    mainInsertLoop db0 stdCols [badMainRow, goodStdRow] = .error "InterfaceError" :=
  ⟨C2_row_failure_policy.1 stdCols db0 badTimeRow "AttributeError" [goodStdRow] rfl,
   C2_row_failure_policy.2.2.2.1 stdCols db0 badMainRow "InterfaceError" [goodStdRow] rfl⟩

/-- C3 (counterexample): running the program with no flags still performs
a network fetch, a database write (the CREATE TABLE and, with nonzero
data, inserts), and a query — the module-level cells run regardless of
flags, so the execution is not a no-op. -/
theorem C3_counterexample :
    Effect.httpGet usgsUrl ∈ programEffects false none 0 0 0 ∧
    Effect.dbExecCreate ∈ programEffects false none 0 0 0 ∧
    Effect.dbExecSelect ∈ programEffects false none 0 0 0 := by
  decide

/-- C3 (amended): with no flags `main` itself contributes no effects at
all, but one execution of the script still fetches both catalogs, writes
to the database and queries it, because the module-level cells run
unconditionally before `main`. -/
theorem C3_no_flags_trace :
    (∀ n : Nat, mainEffects false none n = []) ∧
    ∀ nU nI nC : Nat,
      Effect.httpGet usgsUrl ∈ programEffects false none nU nI nC ∧
      Effect.httpGet iscUrl ∈ programEffects false none nU nI nC ∧
      Effect.dbExecCreate ∈ programEffects false none nU nI nC ∧
      Effect.dbExecSelect ∈ programEffects false none nU nI nC := by
  refine ⟨fun n => rfl, fun nU nI nC => ⟨?_, ?_, ?_, ?_⟩⟩
  all_goals simp [programEffects, moduleCellEffects, mainEffects]

/-- C4 (counterexample): on well-formed inputs from both adapters, every
record persisted through the merged write path has source
`"Unknown"` — not the source-A/source-B provenance tags — because the
concatenated frame has no source column at all. -/
theorem C4_counterexample :
    c4Sources = [Val.vStr "Unknown", Val.vStr "Unknown"] ∧
    Val.vStr "Unknown" ≠ Val.vStr "USGS" ∧ Val.vStr "Unknown" ≠ Val.vStr "ISC" := by
  refine ⟨rfl, by simp, by simp⟩

/-- C4 (amended): the merged sequence carries no source tag — the
normalized projections have only the four canonical columns — so every
record persisted through the merged write path receives the `"Unknown"`
sentinel via `row.get('source', 'Unknown')`; the per-source tags are
hard-coded only in the separate module-level loops. -/
theorem C4_merged_source_unknown (u i : DF) (db d : DB)
    (h : mainFetch u i db = .ok d) :
    ∀ sr ∈ d.rows, sr ∈ db.rows ∨ sr.source = .vStr "Unknown" := by
  unfold mainFetch at h
  obtain ⟨oU, hu, h⟩ := exceptBind_ok h
  obtain ⟨oI, hi, h⟩ := exceptBind_ok h
  have hcc : (concatDF oU.2 oI.2).columns = stdCols :=
    concat_columns_std (standardize_usgs_ok hu).2.2.2.2.2
      (standardize_isc_ok hi).2.2.2.2.2
  rw [hcc] at h
  exact mainInsertLoop_sourceUnknown (show colIdx stdCols "source" = none from rfl)
    _ db d h

/-- C4 (witness): the amended theorem applied to the concrete good run,
at its first persisted record. -/
theorem C4_merged_source_unknown_witness :
    c4Row1 ∈ db0.rows ∨ c4Row1.source = Val.vStr "Unknown" :=
  C4_merged_source_unknown usgsGoodRaw iscGoodDF db0 c4RunDB rfl c4Row1
    (List.mem_cons_self _ _)

/-- C5 (counterexample): a USGS feature with a JSON-null magnitude flows
through the merged write path and is persisted with a NULL magnitude —
the store enforces no non-null invariant. -/
theorem C5_counterexample : c5Mags = [Val.vNull] := rfl

/-- C5 (amended): the table has no NOT NULL constraints and the merged
write path filters nothing, so an insert with a null magnitude succeeds
and stores the null; the source field does default to the `"Unknown"`
sentinel when the row carries no source column. -/
theorem C5_nulls_persist_and_sentinel :
    (∀ (db : DB) (t lon lat src : Val), "earthquakes" ∈ db.tables →
      bindable t = true → bindable lon = true → bindable lat = true →
      bindable src = true →
      insertEarthquake db t .vNull lon lat src =
        .ok ⟨db.tables, db.nextId + 1,
          db.rows ++ [⟨db.nextId, t, .vNull, lon, lat, src⟩]⟩) ∧
    (∀ (cols : List String) (r : List Val), colIdx cols "source" = none →
      rowGetD cols r "source" (.vStr "Unknown") = .vStr "Unknown") := by
  constructor
  · intro db t lon lat src hmem h1 h2 h3 h4
    have h0 : bindable Val.vNull = true := rfl
    simp [insertEarthquake, hmem, h1, h2, h3, h4, h0]
  · intro cols r hs
    unfold rowGetD
    rw [hs]

/-- C5 (witness): the amended theorem applied to a concrete null-magnitude
insert into the fresh store and a concrete source-less row. -/
theorem C5_nulls_persist_and_sentinel_witness :
    insertEarthquake db0 (Val.vTime (.fromStr "2023-05-01 00:00:00")) .vNull
        (Val.vNum ⟨-1201, 1⟩) (Val.vNum ⟨350, 1⟩) (Val.vStr "Unknown") =
      .ok ⟨db0.tables, db0.nextId + 1,
        db0.rows ++ [⟨db0.nextId, Val.vTime (.fromStr "2023-05-01 00:00:00"), .vNull,
          Val.vNum ⟨-1201, 1⟩, Val.vNum ⟨350, 1⟩, Val.vStr "Unknown"⟩]⟩ ∧
    rowGetD stdCols goodStdRow "source" (.vStr "Unknown") = .vStr "Unknown" :=
  ⟨C5_nulls_persist_and_sentinel.1 db0 _ _ _ _ (by decide) rfl rfl rfl rfl,
   C5_nulls_persist_and_sentinel.2 stdCols goodStdRow rfl⟩

/-- C6: for normalized tables in canonical shape, the merger's output is
exactly the source-A rows followed by the source-B rows, each group in
its original relative order — plain concatenation, no interleaving, no
time sorting. -/
theorem C6_merger_ordering (u i : DF) (hu : u.columns = stdCols)
    (hi : i.columns = stdCols) (hru : ∀ r ∈ u.rows, r.length = 4)
    (hri : ∀ r ∈ i.rows, r.length = 4) :
    (concatDF u i).columns = stdCols ∧ (concatDF u i).rows = u.rows ++ i.rows :=
  ⟨concat_columns_std hu hi, concat_rows_std hu hi hru hri⟩

/-- C6 (witness): the theorem applied to the spec's scenario of a 2-row
source-A table and a 3-row source-B table. -/
theorem C6_merger_ordering_witness :
    (concatDF dfA2 dfB3).columns = stdCols ∧
    (concatDF dfA2 dfB3).rows = dfA2.rows ++ dfB3.rows :=
  C6_merger_ordering dfA2 dfB3 rfl rfl
    (by simp [dfA2, List.forall_mem_cons]) (by simp [dfB3, List.forall_mem_cons])

/-- C7: the store's initialize operation (CREATE TABLE IF NOT EXISTS) is
idempotent — N applications (N ≥ 1) equal one application, the rows
already present are preserved, and exactly one `earthquakes` table
results. -/
theorem C7_initialize_idempotent (db : DB) (n : Nat) (h1 : 1 ≤ n)
    (h2 : db.tables.count "earthquakes" ≤ 1) :
    Nat.iterate createTableIfNotExists n db = createTableIfNotExists db ∧
    (createTableIfNotExists db).rows = db.rows ∧
    (createTableIfNotExists db).tables.count "earthquakes" = 1 := by
  obtain ⟨k, rfl⟩ : ∃ k, n = k + 1 := ⟨n - 1, by omega⟩
  exact ⟨createTable_iterate k db, createTable_rows db, createTable_count h2⟩

/-- C7 (witness): the theorem applied three times over to a store that
already has the table and a row. -/
theorem C7_initialize_idempotent_witness :
    Nat.iterate createTableIfNotExists 3 dbPre = createTableIfNotExists dbPre ∧
    (createTableIfNotExists dbPre).rows = dbPre.rows ∧
    (createTableIfNotExists dbPre).tables.count "earthquakes" = 1 :=
  C7_initialize_idempotent dbPre 3 (by decide) (by decide)

/-- C8: the query path substitutes the predicate text verbatim into the
filter clause, and the returned list is exactly the stored rows whose
denotation satisfies the predicate, in stored order, each carrying the
five canonical fields plus the surrogate id and the source. -/
theorem C8_query_pass_through (p : String) (db : DB) (pred : StoredRow → Bool)
    (sr : StoredRow) :
    querySql p = "SELECT * FROM earthquakes WHERE " ++ p ∧
    (sr ∈ runQuery db pred ↔ sr ∈ db.rows ∧ pred sr = true) ∧
    List.Sublist (runQuery db pred) db.rows :=
  ⟨rfl, List.mem_filter, List.filter_sublist db.rows⟩

/-- C9 (counterexample): with an empty source-A feature collection, the
run does NOT yield a zero-row merged table with a no-op insert — the
normalization raises `KeyError` (json_normalize of no features produces a
frame with no columns), aborting the fetch run. -/
theorem C9_counterexample :
    standardize_usgs_data (jsonNormalize []) = .error "KeyError" ∧
    mainFetch (jsonNormalize []) iscEmptyParsed db0 = .error "KeyError" :=
  ⟨rfl, rfl⟩

/-- C9 (amended): a header-only source-B response does normalize to a
zero-row table, and an empty batch is a no-op for the insert loop; but an
empty source-A feature collection makes the run raise `KeyError` before
merging, so the store is left unchanged by an abort rather than by a
graceful empty insert. -/
theorem C9_empty_inputs :
    fetch_isc_parse [iscHeaderLine] = .ok iscEmptyParsed ∧
    standardize_isc_data iscEmptyParsed = .ok (iscEmptyMut, dfEmptyStd) ∧
    (∀ (db : DB) (cols : List String), mainInsertLoop db cols [] = .ok db) ∧
    (∀ (iscRaw : DF) (db : DB),
      mainFetch (jsonNormalize []) iscRaw db = .error "KeyError") :=
  ⟨rfl, rfl, fun _ _ => rfl, fun _ _ => rfl⟩

/-- C10: both normalization entry points mutate the raw frame they are
given — on success the caller's frame has gained the four canonical
columns (keeping all its original ones), so it is no longer equal to the
raw input whenever those columns were absent — rather than leaving the
input unchanged. -/
theorem C10_normalizers_mutate_input (dfU dfI : DF) (oU oI : DF × DF)
    (hU : standardize_usgs_data dfU = .ok oU)
    (hI : standardize_isc_data dfI = .ok oI) :
    ((∀ c ∈ dfU.columns, c ∈ oU.1.columns) ∧
      "time" ∈ oU.1.columns ∧ "magnitude" ∈ oU.1.columns ∧
      "longitude" ∈ oU.1.columns ∧ "latitude" ∈ oU.1.columns ∧
      ("time" ∉ dfU.columns → oU.1 ≠ dfU)) ∧
    ((∀ c ∈ dfI.columns, c ∈ oI.1.columns) ∧
      "time" ∈ oI.1.columns ∧ "magnitude" ∈ oI.1.columns ∧
      "longitude" ∈ oI.1.columns ∧ "latitude" ∈ oI.1.columns ∧
      ("time" ∉ dfI.columns → oI.1 ≠ dfI)) := by
  obtain ⟨hmU, htU, hmgU, hlonU, hlatU, _⟩ := standardize_usgs_ok hU
  obtain ⟨hmI, htI, hmgI, hlonI, hlatI, _⟩ := standardize_isc_ok hI
  refine ⟨⟨hmU, htU, hmgU, hlonU, hlatU, ?_⟩, ⟨hmI, htI, hmgI, hlonI, hlatI, ?_⟩⟩
  · intro hnotin heq
    exact hnotin (heq ▸ htU)
  · intro hnotin heq
    exact hnotin (heq ▸ htI)

/-- C10 (witness): the theorem applied to the concrete good raw frames;
both mutated frames carry the appended canonical time column. -/
theorem C10_normalizers_mutate_input_witness :
    "time" ∈ c10oU.1.columns ∧ "time" ∈ c10oI.1.columns :=
  ⟨(C10_normalizers_mutate_input usgsGoodRaw iscGoodDF c10oU c10oI rfl rfl).1.2.1,
   (C10_normalizers_mutate_input usgsGoodRaw iscGoodDF c10oU c10oI rfl rfl).2.2.1⟩

end SeismoTool
